import Mathlib

/-!
Shallow embedding of the computational core of the `levelizedcostmodelUK`
repository (`src/model.js`): the 8,760-hour dispatch loop of `runModel`
(solar → battery → gas merit order with one carried state-of-charge
scalar), the input-reading conventions of the two `runModel` variants,
the CSV-cell coercion used to build `solarProfile`, and the levelized
cost engine (`calcCRF`, per-resource LCOE guards, system LCOE).
Machine floating point is idealized as exact rational arithmetic `ℚ`.
-/

/-- Hours in the simulated year (`HOURS_PER_YEAR` in `model.js`). -/
def HOURS_PER_YEAR : ℕ := 8760

/-- Constant hourly baseload demand in MWh/h (`let demand = 1000`). -/
def demandPerHour : ℚ := 1000

/-- Technical configuration reaching the dispatch loop:
`solarCapMW`, `batteryCapMWh`, `inverterRatio` of `runModel`. -/
structure Tech where
  solarCapMW : ℚ
  batteryCapMWh : ℚ
  inverterRatio : ℚ

/-- Step 2 of the loop: `const directSolarUsed = Math.min(demand, clippedSolarMW)`. -/
def directSolarUsed (c : ℚ) : ℚ := min demandPerHour c

/-- `const demandLeft = demand - directSolarUsed`. -/
def demandLeft (c : ℚ) : ℚ := demandPerHour - directSolarUsed c

/-- `const leftoverSolar = clippedSolarMW - directSolarUsed`. -/
def leftoverSolar (c : ℚ) : ℚ := c - directSolarUsed c

/-- `let batteryCharge = 0; if (leftoverSolar > 0) batteryCharge =
Math.min(leftoverSolar, batteryCapMWh - batterySoC)`. -/
def batteryCharge (cap soc c : ℚ) : ℚ :=
  if 0 < leftoverSolar c then min (leftoverSolar c) (cap - soc) else 0

/-- The state-of-charge increment actually applied:
`if (batteryCharge > 0) batterySoC += batteryCharge` (0 otherwise). -/
def chargeAmt (cap soc c : ℚ) : ℚ :=
  if 0 < batteryCharge cap soc c then batteryCharge cap soc c else 0

/-- State of charge after the charging step. -/
def socAfterCharge (cap soc c : ℚ) : ℚ := soc + chargeAmt cap soc c

/-- `const leftoverAfterCharge = leftoverSolar - batteryCharge;
if (leftoverAfterCharge > 0) solarCurtailedFlow[h] = leftoverAfterCharge`. -/
def curtailedAmt (cap soc c : ℚ) : ℚ :=
  if 0 < leftoverSolar c - batteryCharge cap soc c
  then leftoverSolar c - batteryCharge cap soc c else 0

/-- Step 4: `if (netLoad > 0 && batterySoC > 0) { const batteryDischarge =
Math.min(netLoad, batterySoC); ... }` where `netLoad` starts as `demandLeft`
and `batterySoC` is the post-charging state. -/
def dischargeAmt (cap soc c : ℚ) : ℚ :=
  if 0 < demandLeft c ∧ 0 < socAfterCharge cap soc c
  then min (demandLeft c) (socAfterCharge cap soc c) else 0

/-- State of charge carried to the next hour (`batterySoC` after the hour). -/
def socEnd (cap soc c : ℚ) : ℚ := socAfterCharge cap soc c - dischargeAmt cap soc c

/-- The single signed `batteryFlow[h]` cell: set to `-batteryCharge` when
charging, overwritten with `batteryDischarge` when discharging. -/
def batteryFlowVal (cap soc c : ℚ) : ℚ :=
  if 0 < dischargeAmt cap soc c then dischargeAmt cap soc c else -(chargeAmt cap soc c)

/-- Step 5: `if (netLoad > 0) gasFlow[h] = netLoad` after battery discharge. -/
def gasOut (cap soc c : ℚ) : ℚ :=
  if 0 < demandLeft c - dischargeAmt cap soc c
  then demandLeft c - dischargeAmt cap soc c else 0

/-- Step 1 of the loop: `const rawSolarMW = solarProfile[h] * solarCapMW;
const clippedSolarMW = Math.min(rawSolarMW, maxSolarAC)` with
`maxSolarAC = solarCapMW / inverterRatio`. -/
def clippedAt (t : Tech) (p : ℕ → ℚ) (h : ℕ) : ℚ :=
  min (p h * t.solarCapMW) (t.solarCapMW / t.inverterRatio)

/-- Battery state of charge entering hour `h` (`let batterySoC = 0` before
the loop, then carried forward). -/
def socBefore (t : Tech) (p : ℕ → ℚ) : ℕ → ℚ
  | 0 => 0
  | h + 1 => socEnd t.batteryCapMWh (socBefore t p h) (clippedAt t p h)

/-- `solarUsedFlow[h]`. -/
def solarUsedAt (t : Tech) (p : ℕ → ℚ) (h : ℕ) : ℚ :=
  directSolarUsed (clippedAt t p h)

/-- Battery charge recorded for hour `h` (magnitude of the negative flow). -/
def chargeAt (t : Tech) (p : ℕ → ℚ) (h : ℕ) : ℚ :=
  chargeAmt t.batteryCapMWh (socBefore t p h) (clippedAt t p h)

/-- Battery discharge recorded for hour `h` (the positive flow). -/
def dischargeAt (t : Tech) (p : ℕ → ℚ) (h : ℕ) : ℚ :=
  dischargeAmt t.batteryCapMWh (socBefore t p h) (clippedAt t p h)

/-- The signed `batteryFlow[h]` cell for hour `h`. -/
def batteryFlowAt (t : Tech) (p : ℕ → ℚ) (h : ℕ) : ℚ :=
  batteryFlowVal t.batteryCapMWh (socBefore t p h) (clippedAt t p h)

/-- `gasFlow[h]`. -/
def gasAt (t : Tech) (p : ℕ → ℚ) (h : ℕ) : ℚ :=
  gasOut t.batteryCapMWh (socBefore t p h) (clippedAt t p h)

/-- `solarCurtailedFlow[h]`. -/
def curtailedAt (t : Tech) (p : ℕ → ℚ) (h : ℕ) : ℚ :=
  curtailedAmt t.batteryCapMWh (socBefore t p h) (clippedAt t p h)

/-- Battery state of charge after hour `h` completes. -/
def socAfterAt (t : Tech) (p : ℕ → ℚ) (h : ℕ) : ℚ :=
  socEnd t.batteryCapMWh (socBefore t p h) (clippedAt t p h)

/-- `const totalGasMWh = sumArray(gasFlow)`. -/
def totalGasMWh (t : Tech) (p : ℕ → ℚ) : ℚ :=
  ∑ h ∈ Finset.range HOURS_PER_YEAR, gasAt t p h

/-- Capital Recovery Factor (`calcCRF` in `model.js`); the lifetime is a
whole number of years. -/
def calcCRF (rate : ℚ) (years : ℕ) : ℚ :=
  if rate = 0 then 1 / years
  else rate * (1 + rate) ^ years / ((1 + rate) ^ years - 1)

/-- `let gasFuelConsumed = 0; if (gasEfficiency > 0) gasFuelConsumed =
totalGasMWh / gasEfficiency`. -/
def gasFuelConsumed (totalGas gasEfficiency : ℚ) : ℚ :=
  if 0 < gasEfficiency then totalGas / gasEfficiency else 0

/-- `const gasAnnualFuel = gasFuelConsumed * gasFuel`. -/
def gasAnnualFuel (totalGas gasEfficiency gasFuelPrice : ℚ) : ℚ :=
  gasFuelConsumed totalGas gasEfficiency * gasFuelPrice

/-- `const totalDemandMWh = HOURS_PER_YEAR * 1000`. -/
def totalDemandMWh : ℚ := HOURS_PER_YEAR * 1000

/-- The per-resource LCOE guard used for gas, solar and battery alike:
`let lcoe = 0; if (attributedMWh > 0) lcoe = annualCost / attributedMWh`. -/
def resourceLcoe (annualCost attributedMWh : ℚ) : ℚ :=
  if 0 < attributedMWh then annualCost / attributedMWh else 0

/-- `const totalAnnualCost = gas + solar + battery; const systemLcoe =
totalAnnualCost / totalDemandMWh`. -/
def systemLcoe (gasAnnualCost solarAnnualCost batteryAnnualCost : ℚ) : ℚ :=
  (gasAnnualCost + solarAnnualCost + batteryAnnualCost) / totalDemandMWh

/-- Parameter reading of the first `runModel` variant:
`parseFloat(field.value) || dflt` — `none` models a blank or non-numeric
field (`parseFloat` gives `NaN`, which is falsy), and an entered `0` is
also falsy, so both fall back to the default. -/
def readParamV1 (raw : Option ℚ) (dflt : ℚ) : ℚ :=
  match raw with
  | none => dflt
  | some v => if v = 0 then dflt else v

/-- Parameter reading of the second `runModel` variant:
`const input = parseFloat(field.value) || 0; const v = Math.max(input, 0.0001)`. -/
def readParamV2 (raw : Option ℚ) : ℚ :=
  max (raw.getD 0) (1 / 10000)

/-- A cell of the `electricity` column after PapaParse `dynamicTyping`:
a number, a non-numeric string left as-is, or a missing field. -/
inductive CsvCell where
  | num (q : ℚ)
  | str (s : String)
  | missing

/-- The value stored by `solarProfile = results.data.map(row =>
row.electricity || 0)`, tracked as `some q` when the entry behaves as the
number `q` in later arithmetic and `none` when a kept non-numeric string
turns the hour's arithmetic into `NaN`. A number passes through (`0 || 0`
is `0`), a missing field and the empty string are falsy and become `0`,
and a non-empty string is truthy and is kept. -/
def loadCell : CsvCell → Option ℚ
  | .num q => some q
  | .missing => some 0
  | .str s => if s = "" then some 0 else none

/-- Available solar for an hour computed from a raw CSV cell:
`Math.min(cell * solarCapMW, maxSolarAC)`, with `none` propagating the
`NaN` produced by multiplying a non-numeric string. -/
def availableSolarOf (cell : CsvCell) (solarCapMW maxSolarAC : ℚ) : Option ℚ :=
  (loadCell cell).map fun q => min (q * solarCapMW) maxSolarAC

/-- The direct solar serving of load never exceeds the available solar. -/
lemma directSolarUsed_le_self (c : ℚ) : directSolarUsed c ≤ c :=
  min_le_right _ _

/-- The direct solar serving of load never exceeds demand. -/
lemma directSolarUsed_le_demand (c : ℚ) : directSolarUsed c ≤ demandPerHour :=
  min_le_left _ _

/-- Demand remaining after direct solar is non-negative. -/
lemma demandLeft_nonneg (c : ℚ) : 0 ≤ demandLeft c := by
  have := directSolarUsed_le_demand c
  simp only [demandLeft]
  linarith

/-- Leftover solar after serving load is non-negative. -/
lemma leftoverSolar_nonneg (c : ℚ) : 0 ≤ leftoverSolar c := by
  have := directSolarUsed_le_self c
  simp only [leftoverSolar]
  linarith

/-- Positive leftover solar forces the remaining demand to be zero. -/
lemma demandLeft_eq_zero_of_leftover_pos {c : ℚ} (h : 0 < leftoverSolar c) :
    demandLeft c = 0 := by
  rcases min_cases demandPerHour c with ⟨he, hle⟩ | ⟨he, hlt⟩
  · simp only [demandLeft, directSolarUsed, he]
    ring
  · exfalso
    simp only [leftoverSolar, directSolarUsed, he] at h
    linarith

/-- Positive remaining demand forces the leftover solar to be zero. -/
lemma leftover_eq_zero_of_demandLeft_pos {c : ℚ} (h : 0 < demandLeft c) :
    leftoverSolar c = 0 := by
  rcases min_cases demandPerHour c with ⟨he, hle⟩ | ⟨he, hlt⟩
  · exfalso
    simp only [demandLeft, directSolarUsed, he] at h
    linarith
  · simp only [leftoverSolar, directSolarUsed, he]
    ring

/-- The applied charge amount is non-negative. -/
lemma chargeAmt_nonneg (cap soc c : ℚ) : 0 ≤ chargeAmt cap soc c := by
  unfold chargeAmt
  split_ifs with h
  · linarith
  · exact le_refl 0

/-- The applied charge never exceeds the battery headroom, provided the
state of charge is within capacity. -/
lemma chargeAmt_le_headroom {cap soc : ℚ} (hsoc : soc ≤ cap) (c : ℚ) :
    chargeAmt cap soc c ≤ cap - soc := by
  unfold chargeAmt batteryCharge
  split_ifs with h1 h2 h3
  · exact min_le_right _ _
  · linarith
  · linarith
  · linarith

/-- The applied discharge amount is non-negative. -/
lemma dischargeAmt_nonneg (cap soc c : ℚ) : 0 ≤ dischargeAmt cap soc c := by
  unfold dischargeAmt
  split_ifs with h
  · exact le_min h.1.le h.2.le
  · exact le_refl 0

/-- The applied discharge never exceeds the post-charging state of charge. -/
lemma dischargeAmt_le_soc (cap soc c : ℚ) :
    dischargeAmt cap soc c ≤ socAfterCharge cap soc c ∨ dischargeAmt cap soc c = 0 := by
  unfold dischargeAmt
  split_ifs with h
  · exact Or.inl (min_le_right _ _)
  · exact Or.inr rfl

/-- Per-hour energy balance on the demand side: direct solar, battery
discharge and gas together serve exactly the hourly demand, whatever the
state of charge and available solar. -/
lemma step_demand_balance (cap soc c : ℚ) :
    directSolarUsed c + dischargeAmt cap soc c + gasOut cap soc c = demandPerHour := by
  have hu : directSolarUsed c ≤ demandPerHour := min_le_left _ _
  have hmin := min_le_left (demandLeft c) (socAfterCharge cap soc c)
  unfold demandLeft at hmin
  unfold gasOut dischargeAmt demandLeft
  split_ifs <;> linarith

/-- Per-hour energy balance on the solar side, valid whenever the state of
charge does not exceed the battery capacity: direct use, applied charge and
curtailment together account for all clipped solar. -/
lemma step_solar_balance {cap soc : ℚ} (hsoc : soc ≤ cap) (c : ℚ) :
    directSolarUsed c + chargeAmt cap soc c + curtailedAmt cap soc c = c := by
  have hL0 := leftoverSolar_nonneg c
  have hLe : leftoverSolar c = c - directSolarUsed c := rfl
  have hmin1 := min_le_left (leftoverSolar c) (cap - soc)
  have hmin0 : 0 ≤ min (leftoverSolar c) (cap - soc) := le_min hL0 (by linarith)
  unfold curtailedAmt chargeAmt batteryCharge
  split_ifs <;> linarith

/-- One dispatch step keeps the state of charge within `[0, cap]`. -/
lemma step_soc_bounds {cap soc : ℚ} (h0 : 0 ≤ soc) (hc : soc ≤ cap) (c : ℚ) :
    0 ≤ socEnd cap soc c ∧ socEnd cap soc c ≤ cap := by
  have hch0 := chargeAmt_nonneg cap soc c
  have hch1 := chargeAmt_le_headroom hc c
  have hd0 := dischargeAmt_nonneg cap soc c
  have hsoc1 : socAfterCharge cap soc c = soc + chargeAmt cap soc c := rfl
  rcases dischargeAmt_le_soc cap soc c with hd1 | hd1
  · constructor
    · simp only [socEnd, hsoc1] at *
      linarith
    · simp only [socEnd, hsoc1] at *
      linarith
  · constructor
    · simp only [socEnd, hsoc1, hd1] at *
      linarith
    · simp only [socEnd, hsoc1, hd1] at *
      linarith

/-- Charging and discharging are mutually exclusive within one hour. -/
lemma step_charge_discharge_excl (cap soc c : ℚ) :
    chargeAmt cap soc c = 0 ∨ dischargeAmt cap soc c = 0 := by
  rcases lt_or_le 0 (demandLeft c) with hdl | hdl
  · left
    have hl := leftover_eq_zero_of_demandLeft_pos hdl
    unfold chargeAmt batteryCharge
    rw [hl]
    norm_num
  · right
    unfold dischargeAmt
    rw [if_neg]
    intro hcon
    exact absurd hcon.1 (not_lt.mpr hdl)

/-- The single signed battery-flow cell determines both channels: it always
equals discharge minus charge, so no information is lost. -/
lemma step_flow_eq (cap soc c : ℚ) :
    batteryFlowVal cap soc c = dischargeAmt cap soc c - chargeAmt cap soc c := by
  unfold batteryFlowVal
  split_ifs with h
  · rcases step_charge_discharge_excl cap soc c with hch | hdis
    · rw [hch]
      ring
    · rw [hdis] at h
      exact absurd h (lt_irrefl 0)
  · have h0 := dischargeAmt_nonneg cap soc c
    have hz : dischargeAmt cap soc c = 0 := le_antisymm (not_lt.mp h) h0
    rw [hz]
    ring

/-- With a non-negative battery capacity the carried state of charge stays
within `[0, capacity]` at the start of every hour. -/
lemma socBefore_bounds (t : Tech) (p : ℕ → ℚ) (hcap : 0 ≤ t.batteryCapMWh) :
    ∀ h, 0 ≤ socBefore t p h ∧ socBefore t p h ≤ t.batteryCapMWh := by
  intro h
  induction h with
  | zero => exact ⟨le_refl 0, hcap⟩
  | succ n ih =>
    have := step_soc_bounds ih.1 ih.2 (clippedAt t p n)
    simpa [socBefore] using this

/-- With a zero battery capacity the state of charge never leaves zero. -/
lemma socBefore_eq_zero_of_cap_zero (t : Tech) (p : ℕ → ℚ)
    (hcap : t.batteryCapMWh = 0) : ∀ h, socBefore t p h = 0 := by
  intro h
  induction h with
  | zero => rfl
  | succ n ih =>
    have hb := socBefore_bounds t p (le_of_eq hcap.symm) (n + 1)
    rw [hcap] at hb
    exact le_antisymm hb.2 hb.1

/-- With zero capacity and zero state of charge the computed battery charge
is zero. -/
lemma batteryCharge_cap_zero (c : ℚ) : batteryCharge 0 0 c = 0 := by
  unfold batteryCharge
  split_ifs with h
  · rw [show (0 : ℚ) - 0 = 0 by ring, min_eq_right (le_of_lt h)]
  · rfl

/-- With a zero state of charge and zero headroom nothing is charged. -/
lemma chargeAmt_cap_zero (c : ℚ) : chargeAmt 0 0 c = 0 := by
  unfold chargeAmt
  rw [batteryCharge_cap_zero]
  norm_num

/-- With zero capacity and zero state of charge nothing is discharged. -/
lemma dischargeAmt_cap_zero (c : ℚ) : dischargeAmt 0 0 c = 0 := by
  unfold dischargeAmt
  rw [if_neg]
  intro hcon
  have h1 : socAfterCharge 0 0 c = 0 := by
    unfold socAfterCharge
    rw [chargeAmt_cap_zero]
    ring
  rw [h1] at hcon
  exact lt_irrefl 0 hcon.2

/-- With zero capacity and zero state of charge every unit of solar surplus
beyond demand is curtailed. -/
lemma curtailedAmt_cap_zero (c : ℚ) : curtailedAmt 0 0 c = max 0 (c - demandPerHour) := by
  have hbc := batteryCharge_cap_zero c
  rcases le_total c demandPerHour with hcd | hcd
  · have hL : leftoverSolar c = 0 := by
      unfold leftoverSolar directSolarUsed
      rw [min_eq_right hcd]
      ring
    unfold curtailedAmt
    rw [hbc, hL, max_eq_left (by linarith)]
    norm_num
  · have hL : leftoverSolar c = c - demandPerHour := by
      unfold leftoverSolar directSolarUsed
      rw [min_eq_left hcd]
    unfold curtailedAmt
    rw [hbc, hL]
    rcases lt_or_eq_of_le (by linarith : (0 : ℚ) ≤ c - demandPerHour) with hlt | heq
    · rw [if_pos (by linarith), max_eq_right (by linarith)]
      ring
    · rw [← heq]
      norm_num

/-- With no available solar and an empty battery, an hour is served wholly
by gas. -/
lemma gasOut_no_solar (cap : ℚ) : gasOut cap 0 0 = demandPerHour := by
  have hd : directSolarUsed 0 = 0 := by
    unfold directSolarUsed demandPerHour
    norm_num
  have hch : chargeAmt cap 0 0 = 0 := by
    unfold chargeAmt batteryCharge leftoverSolar
    rw [hd]
    norm_num
  have hdis : dischargeAmt cap 0 0 = 0 := by
    unfold dischargeAmt socAfterCharge
    rw [hch]
    rw [if_neg]
    intro hcon
    exact lt_irrefl 0 (by simpa using hcon.2)
  unfold gasOut
  rw [hdis]
  unfold demandLeft
  rw [hd]
  unfold demandPerHour
  norm_num

/-- With no available solar and an empty battery, the battery stays empty. -/
lemma socEnd_no_solar (cap : ℚ) : socEnd cap 0 0 = 0 := by
  have hch : chargeAmt cap 0 0 = 0 := by
    unfold chargeAmt batteryCharge leftoverSolar directSolarUsed demandPerHour
    norm_num
  have hdis : dischargeAmt cap 0 0 = 0 := by
    unfold dischargeAmt socAfterCharge
    rw [hch]
    rw [if_neg]
    intro hcon
    exact lt_irrefl 0 (by simpa using hcon.2)
  unfold socEnd socAfterCharge
  rw [hch, hdis]
  ring

/-- An all-zero capacity-factor profile yields zero clipped solar whenever
the solar capacity is non-negative and the inverter ratio is positive. -/
lemma clippedAt_zero_profile {s r : ℚ} (hs : 0 ≤ s) (hr : 0 < r)
    (cap : ℚ) (h : ℕ) : clippedAt ⟨s, cap, r⟩ (fun _ => 0) h = 0 := by
  unfold clippedAt
  simp only [zero_mul]
  exact min_eq_left (div_nonneg hs (le_of_lt hr))

/-- Under the all-zero profile the state of charge stays at zero. -/
lemma socBefore_zero_profile {s r : ℚ} (hs : 0 ≤ s) (hr : 0 < r)
    (cap : ℚ) : ∀ h, socBefore ⟨s, cap, r⟩ (fun _ => 0) h = 0 := by
  intro h
  induction h with
  | zero => rfl
  | succ n ih =>
    show socEnd cap (socBefore ⟨s, cap, r⟩ (fun _ => 0) n) _ = 0
    rw [ih, clippedAt_zero_profile hs hr]
    exact socEnd_no_solar cap

/-- C1 (counterexample): the per-hour solar balance can fail even though
every capacity factor is non-negative, because a negative battery capacity
(which the first `runModel` variant does not floor away) makes the computed
`batteryCharge` negative: the charge is then not applied, yet
`leftoverAfterCharge = leftoverSolar - batteryCharge` inflates curtailment
beyond the available solar. At hour 0 with capacity factor 2, solar
capacity 2000 MW, inverter ratio 1 and battery capacity −1000 MWh the
recorded flows give `1000 + 0 + 2000 ≠ 2000`. -/
theorem C1_counterexample :
    (∀ h : ℕ, 0 ≤ (fun _ : ℕ => (2 : ℚ)) h) ∧
      ¬(solarUsedAt ⟨2000, -1000, 1⟩ (fun _ => 2) 0 +
          chargeAt ⟨2000, -1000, 1⟩ (fun _ => 2) 0 +
          curtailedAt ⟨2000, -1000, 1⟩ (fun _ => 2) 0 =
            clippedAt ⟨2000, -1000, 1⟩ (fun _ => 2) 0) := by
  refine ⟨fun _ => by norm_num, ?_⟩
  have hc : clippedAt ⟨2000, -1000, 1⟩ (fun _ => 2) 0 = 2000 := by
    show min ((2 : ℚ) * 2000) (2000 / 1) = 2000
    rw [show (2 : ℚ) * 2000 = 4000 by norm_num, show (2000 : ℚ) / 1 = 2000 by norm_num]
    exact min_eq_right (by norm_num)
  have hsoc0 : socBefore ⟨2000, -1000, 1⟩ (fun _ => 2) 0 = 0 := rfl
  have hused : solarUsedAt ⟨2000, -1000, 1⟩ (fun _ => 2) 0 = 1000 := by
    unfold solarUsedAt
    rw [hc]
    show min (1000 : ℚ) 2000 = 1000
    exact min_eq_left (by norm_num)
  have hL : leftoverSolar (2000 : ℚ) = 1000 := by
    unfold leftoverSolar directSolarUsed demandPerHour
    rw [min_eq_left (by norm_num)]
    norm_num
  have hbc : batteryCharge (-1000) 0 (2000 : ℚ) = -1000 := by
    unfold batteryCharge
    rw [hL, if_pos (by norm_num : (0 : ℚ) < 1000),
      show ((-1000 : ℚ) - 0) = -1000 by ring]
    exact min_eq_right (by norm_num)
  have hch : chargeAt ⟨2000, -1000, 1⟩ (fun _ => 2) 0 = 0 := by
    unfold chargeAt
    rw [hc, hsoc0]
    show chargeAmt (-1000) 0 2000 = 0
    unfold chargeAmt
    rw [hbc]
    norm_num
  have hcu : curtailedAt ⟨2000, -1000, 1⟩ (fun _ => 2) 0 = 2000 := by
    unfold curtailedAt
    rw [hc, hsoc0]
    show curtailedAmt (-1000) 0 2000 = 2000
    unfold curtailedAmt
    rw [hbc, hL]
    norm_num
  intro heq
  rw [hused, hch, hcu, hc] at heq
  norm_num at heq

/-- C1 (amended): for every hour of the dispatch loop, the recorded flows
satisfy both balance equations — `solar_used + battery_discharge + gas =
demand` and `solar_used + battery_charge + curtailed = clipped solar` —
assuming non-negative capacity factors and additionally a non-negative
battery capacity. -/
theorem C1_energy_balance (t : Tech) (p : ℕ → ℚ) (hcap : 0 ≤ t.batteryCapMWh)
    (_hcf : ∀ h, 0 ≤ p h) :
    ∀ h, h < HOURS_PER_YEAR →
      solarUsedAt t p h + dischargeAt t p h + gasAt t p h = demandPerHour ∧
      solarUsedAt t p h + chargeAt t p h + curtailedAt t p h = clippedAt t p h := by
  intro h _
  constructor
  · exact step_demand_balance _ _ _
  · exact step_solar_balance (socBefore_bounds t p hcap h).2 _

/-- Witness for `C1_energy_balance` at a concrete configuration and hour. -/
theorem C1_energy_balance_witness :
    0 ≤ (Tech.mk 2000 1000 1).batteryCapMWh ∧
      (solarUsedAt ⟨2000, 1000, 1⟩ (fun _ => 1) 0 +
          dischargeAt ⟨2000, 1000, 1⟩ (fun _ => 1) 0 +
          gasAt ⟨2000, 1000, 1⟩ (fun _ => 1) 0 = demandPerHour ∧
        solarUsedAt ⟨2000, 1000, 1⟩ (fun _ => 1) 0 +
          chargeAt ⟨2000, 1000, 1⟩ (fun _ => 1) 0 +
          curtailedAt ⟨2000, 1000, 1⟩ (fun _ => 1) 0 =
            clippedAt ⟨2000, 1000, 1⟩ (fun _ => 1) 0) :=
  ⟨by norm_num,
    C1_energy_balance ⟨2000, 1000, 1⟩ (fun _ => 1) (by norm_num)
      (fun _ => by norm_num) 0 (by norm_num [HOURS_PER_YEAR])⟩

/-- C2: throughout the dispatch simulation the battery state of charge stays
within bounds — after every hour's charge and discharge steps,
`0 ≤ state_of_charge ≤ battery capacity`, given a non-negative battery
capacity and non-negative hourly capacity factors. -/
theorem C2_soc_bounds (t : Tech) (p : ℕ → ℚ) (hcap : 0 ≤ t.batteryCapMWh)
    (_hcf : ∀ h, 0 ≤ p h) :
    ∀ h, h < HOURS_PER_YEAR →
      0 ≤ socAfterAt t p h ∧ socAfterAt t p h ≤ t.batteryCapMWh := by
  intro h _
  have hb := socBefore_bounds t p hcap (h + 1)
  simpa [socBefore, socAfterAt] using hb

/-- Witness for `C2_soc_bounds` at a concrete configuration and hour. -/
theorem C2_soc_bounds_witness :
    0 ≤ (Tech.mk 1000 500 2).batteryCapMWh ∧
      (0 ≤ socAfterAt ⟨1000, 500, 2⟩ (fun _ => 1/2) 3 ∧
        socAfterAt ⟨1000, 500, 2⟩ (fun _ => 1/2) 3 ≤ (Tech.mk 1000 500 2).batteryCapMWh) :=
  ⟨by norm_num,
    C2_soc_bounds ⟨1000, 500, 2⟩ (fun _ => 1/2) (by norm_num)
      (fun _ => by norm_num) 3 (by norm_num [HOURS_PER_YEAR])⟩

/-- C10: per hour, battery charging and discharging are mutually exclusive
(at most one of the recorded charge and discharge amounts is nonzero), and
the single signed `batteryFlow` cell equals discharge minus charge, so it
loses no information. -/
theorem C10_mutual_exclusion (t : Tech) (p : ℕ → ℚ) (h : ℕ) :
    (chargeAt t p h = 0 ∨ dischargeAt t p h = 0) ∧
      batteryFlowAt t p h = dischargeAt t p h - chargeAt t p h := by
  unfold chargeAt dischargeAt batteryFlowAt
  exact ⟨step_charge_discharge_excl _ _ _, step_flow_eq _ _ _⟩

/-- C8: with battery capacity configured as zero, the battery charge and
discharge flows are exactly zero every hour, the state of charge stays at
zero throughout the year, and all solar surplus beyond demand is recorded
as curtailment. -/
theorem C8_zero_battery (t : Tech) (p : ℕ → ℚ) (hcap : t.batteryCapMWh = 0) :
    ∀ h, h < HOURS_PER_YEAR →
      chargeAt t p h = 0 ∧ dischargeAt t p h = 0 ∧ batteryFlowAt t p h = 0 ∧
      socBefore t p h = 0 ∧ socAfterAt t p h = 0 ∧
      curtailedAt t p h = max 0 (clippedAt t p h - demandPerHour) := by
  intro h _
  have hsoc := socBefore_eq_zero_of_cap_zero t p hcap h
  have hch : chargeAt t p h = 0 := by
    unfold chargeAt
    rw [hcap, hsoc]
    exact chargeAmt_cap_zero _
  have hdis : dischargeAt t p h = 0 := by
    unfold dischargeAt
    rw [hcap, hsoc]
    exact dischargeAmt_cap_zero _
  have hflow : batteryFlowAt t p h = 0 := by
    have := (C10_mutual_exclusion t p h).2
    rw [this, hch, hdis]
    ring
  have hafter : socAfterAt t p h = 0 := by
    have := socBefore_eq_zero_of_cap_zero t p hcap (h + 1)
    simpa [socBefore, socAfterAt] using this
  have hcurt : curtailedAt t p h = max 0 (clippedAt t p h - demandPerHour) := by
    unfold curtailedAt
    rw [hcap, hsoc]
    exact curtailedAmt_cap_zero _
  exact ⟨hch, hdis, hflow, hsoc, hafter, hcurt⟩

/-- C7: with a zero capacity factor for every hour and zero battery
capacity, gas serves exactly 1000 MWh in every one of the 8,760 hours and
the annual gas total is 8,760,000 MWh (for any non-negative solar capacity
and positive inverter ratio). -/
theorem C7_zero_solar_scenario (s r : ℚ) (hs : 0 ≤ s) (hr : 0 < r) :
    (∀ h, h < HOURS_PER_YEAR → gasAt ⟨s, 0, r⟩ (fun _ => 0) h = 1000) ∧
      totalGasMWh ⟨s, 0, r⟩ (fun _ => 0) = 8760000 := by
  have hgas : ∀ h : ℕ, gasAt ⟨s, 0, r⟩ (fun _ => 0) h = 1000 := by
    intro h
    unfold gasAt
    rw [socBefore_zero_profile hs hr, clippedAt_zero_profile hs hr]
    exact gasOut_no_solar _
  constructor
  · exact fun h _ => hgas h
  · unfold totalGasMWh
    rw [Finset.sum_congr rfl fun h _ => hgas h, Finset.sum_const, Finset.card_range]
    unfold HOURS_PER_YEAR
    norm_num

/-- Witness for `C7_zero_solar_scenario` at a concrete configuration. -/
theorem C7_zero_solar_scenario_witness :
    0 ≤ (500 : ℚ) ∧ 0 < (2 : ℚ) ∧
      ((∀ h, h < HOURS_PER_YEAR → gasAt ⟨500, 0, 2⟩ (fun _ => 0) h = 1000) ∧
        totalGasMWh ⟨500, 0, 2⟩ (fun _ => 0) = 8760000) :=
  ⟨by norm_num, by norm_num, C7_zero_solar_scenario 500 2 (by norm_num) (by norm_num)⟩

/-- Witness for `C8_zero_battery` at a concrete configuration and hour. -/
theorem C8_zero_battery_witness :
    (Tech.mk 3000 0 1).batteryCapMWh = 0 ∧
      (chargeAt ⟨3000, 0, 1⟩ (fun _ => 1) 0 = 0 ∧
        dischargeAt ⟨3000, 0, 1⟩ (fun _ => 1) 0 = 0 ∧
        batteryFlowAt ⟨3000, 0, 1⟩ (fun _ => 1) 0 = 0 ∧
        socBefore ⟨3000, 0, 1⟩ (fun _ => 1) 0 = 0 ∧
        socAfterAt ⟨3000, 0, 1⟩ (fun _ => 1) 0 = 0 ∧
        curtailedAt ⟨3000, 0, 1⟩ (fun _ => 1) 0 =
          max 0 (clippedAt ⟨3000, 0, 1⟩ (fun _ => 1) 0 - demandPerHour)) :=
  ⟨rfl, C8_zero_battery ⟨3000, 0, 1⟩ (fun _ => 1) rfl 0 (by norm_num [HOURS_PER_YEAR])⟩

/-- C3: for every positive thermal efficiency, the annual gas fuel cost
equals (total annual gas energy output ÷ efficiency) × unit fuel price. -/
theorem C3_gas_fuel_cost (totalGas eff price : ℚ) (heff : 0 < eff) :
    gasAnnualFuel totalGas eff price = totalGas / eff * price := by
  unfold gasAnnualFuel gasFuelConsumed
  rw [if_pos heff]

/-- Witness for `C3_gas_fuel_cost` at a concrete efficiency. -/
theorem C3_gas_fuel_cost_witness :
    0 < (9 / 20 : ℚ) ∧
      gasAnnualFuel 100000 (9 / 20) 40 = 100000 / (9 / 20) * 40 :=
  ⟨by norm_num, C3_gas_fuel_cost 100000 (9 / 20) 40 (by norm_num)⟩

/-- C5: a resource whose attributed annual energy is zero gets a levelized
cost of exactly zero (never an undefined ratio), while its total annual
cost still enters the numerator of the system levelized cost. -/
theorem C5_zero_energy_lcoe (gasCost solarCost batteryCost : ℚ) :
    resourceLcoe gasCost 0 = 0 ∧ resourceLcoe solarCost 0 = 0 ∧
      resourceLcoe batteryCost 0 = 0 ∧
      systemLcoe gasCost solarCost batteryCost * totalDemandMWh =
        gasCost + solarCost + batteryCost := by
  refine ⟨?_, ?_, ?_, ?_⟩
  · unfold resourceLcoe
    norm_num
  · unfold resourceLcoe
    norm_num
  · unfold resourceLcoe
    norm_num
  · unfold systemLcoe
    rw [div_mul_cancel₀]
    unfold totalDemandMWh HOURS_PER_YEAR
    norm_num

/-- C6: the capital recovery factor satisfies `calcCRF 0 n = 1 / n` for
every positive lifetime `n`, and for every fixed positive rate `r` it is
strictly decreasing in the lifetime. -/
theorem C6_crf_properties :
    (∀ n : ℕ, 0 < n → calcCRF 0 n = 1 / (n : ℚ)) ∧
      (∀ r : ℚ, 0 < r → ∀ n m : ℕ, 0 < n → n < m → calcCRF r m < calcCRF r n) := by
  constructor
  · intro n _
    unfold calcCRF
    rw [if_pos rfl]
  · intro r hr n m hn hnm
    have hr0 : r ≠ 0 := ne_of_gt hr
    have ha : 1 < 1 + r := by linarith
    have hxn : 1 < (1 + r) ^ n := one_lt_pow₀ ha hn.ne'
    have hxm : 1 < (1 + r) ^ m := one_lt_pow₀ ha (by omega)
    have hmono : (1 + r) ^ n < (1 + r) ^ m := pow_lt_pow_right₀ ha hnm
    unfold calcCRF
    rw [if_neg hr0, if_neg hr0]
    rw [div_lt_div_iff₀ (by linarith) (by linarith)]
    nlinarith [mul_pos hr (sub_pos.mpr hmono)]

/-- Witness for `C6_crf_properties` at concrete lifetimes and rates. -/
theorem C6_crf_properties_witness :
    (0 < 4 ∧ calcCRF 0 4 = 1 / (4 : ℚ)) ∧
      (0 < (1 : ℚ) ∧ 0 < 2 ∧ 2 < 3 ∧ calcCRF 1 3 < calcCRF 1 2) :=
  ⟨⟨by norm_num, C6_crf_properties.1 4 (by norm_num)⟩,
    ⟨by norm_num, by norm_num, by norm_num,
      C6_crf_properties.2 1 (by norm_num) 2 3 (by norm_num) (by norm_num)⟩⟩

/-- C4 (counterexample): in the first `runModel` variant a negative entry
is truthy, so `parseFloat(x) || default` passes it through unfloored — for
example an inverter ratio entered as −2 (default 1.2) reaches the division
`solarCapMW / inverterRatio` as −2, a negative value. -/
theorem C4_counterexample :
    readParamV1 (some (-2)) (6 / 5) = -2 ∧ ((-2 : ℚ) < 0) := by
  constructor
  · unfold readParamV1
    norm_num
  · norm_num

/-- C4 (amended): the second `runModel` variant floors every parameter to
the small positive constant `0.0001` before use; the first variant replaces
only non-numeric and zero entries by the per-field default and passes
negative entries through unchanged. -/
theorem C4_param_flooring :
    (∀ raw : Option ℚ, 1 / 10000 ≤ readParamV2 raw) ∧
      (∀ d : ℚ, readParamV1 none d = d ∧ readParamV1 (some 0) d = d) := by
  constructor
  · intro raw
    exact le_max_right _ _
  · intro d
    constructor
    · rfl
    · unfold readParamV1
      norm_num

/-- C9: the failing input for the profile-loading contract. A missing field
is falsy and is stored as zero available solar, but a non-numeric non-empty
string (for example "abc") is truthy, survives `row.electricity || 0`, and
turns the hour's available solar into `NaN` (modelled as `none`), which the
claim and the spec say must instead be treated as zero. -/
theorem C9_nonnumeric_cell :
    availableSolarOf CsvCell.missing 2000 2000 = some 0 ∧
      availableSolarOf (CsvCell.str "abc") 2000 2000 = none ∧
      availableSolarOf (CsvCell.str "abc") 2000 2000 ≠ some 0 := by
  have hstr : loadCell (CsvCell.str "abc") = none := by
    show (if "abc" = "" then some (0 : ℚ) else none) = none
    rw [if_neg (by decide)]
  refine ⟨?_, ?_, ?_⟩
  · show some (min ((0 : ℚ) * 2000) 2000) = some 0
    rw [show (0 : ℚ) * 2000 = 0 by ring, min_eq_left (by norm_num)]
  · unfold availableSolarOf
    rw [hstr]
    rfl
  · unfold availableSolarOf
    rw [hstr]
    simp
